import Mathlib

/-!
Shallow embedding of the Temple Membership admin dashboard:
the relational schema and row-level-security policies
(supabase migrations), the client data-access functions
(MembersTable, ApplicationsTable, RecentApplicationsTable, DashboardPage),
the admin route guard (useAdminAuth / AdminProtectedRoute), and the
admin login handler (AdminLoginPage), together with theorems settling
the specification claims about them.
-/

namespace Temple

/-- User identities (auth.users ids, uuid in the source) are modelled
as natural numbers. -/
abbrev UserId := Nat

/-- A row of the `public.user_roles` table:
`id uuid PK, user_id uuid, role text, created_at timestamptz,
UNIQUE(user_id, role)`. -/
structure RoleRow where
  id : Nat
  user_id : UserId
  role : String
  created_at : Nat
deriving DecidableEq, Repr

/-- `public.is_admin(check_user_id uuid)`:
`RETURN EXISTS (SELECT 1 FROM public.user_roles
WHERE user_id = check_user_id AND role = 'admin')`.
SECURITY DEFINER: it reads the whole `user_roles` table regardless of the
caller, so the model takes the full table as argument. Read-only: it
returns a boolean and leaves the table untouched. -/
def is_admin (user_roles : List RoleRow) (check_user_id : UserId) : Bool :=
  user_roles.any (fun r => r.user_id == check_user_id && r.role == "admin")

/-- `public.membership_type` enum. -/
inductive MembershipType
  | basic | silver | gold | platinum
deriving DecidableEq, Repr

/-- `public.application_status` enum. -/
inductive AppStatus
  | pending | approved | rejected
deriving DecidableEq, Repr

/-- Text form of an `application_status` value, as compared by the
PostgREST `.eq("status", s)` filters in the client code. -/
def statusToString : AppStatus → String
  | .pending => "pending"
  | .approved => "approved"
  | .rejected => "rejected"

/-- A row of `public.profiles` (one-to-one with auth.users). -/
structure Profile where
  id : UserId
  full_name : String
  email : String
  phone : String
  date_of_birth : Nat
  address : String
  city : String
  state : String
  pincode : String
  emergency_contact : String
  emergency_phone : String
  aadhar_number : String
  aadhar_card_url : Option String
  created_at : Nat
  updated_at : Nat
deriving DecidableEq, Repr

/-- A row of `public.membership_applications`. `status` is nullable with
default `'pending'` (the client types it `ApplicationStatus | null`). -/
structure Application where
  id : Nat
  user_id : UserId
  membership_type : MembershipType
  amount : Int
  payment_reference : Option String
  status : Option AppStatus
  admin_notes : Option String
  created_at : Nat
  updated_at : Nat
deriving DecidableEq, Repr

/-- Database operations RLS policies can be scoped to
(`FOR SELECT / INSERT / UPDATE / DELETE`; `FOR ALL` covers every one). -/
inductive Op
  | select | insert | update | delete
deriving DecidableEq, Repr

/-- Policy "Users can view and update their own profile." —
`ON public.profiles FOR ALL USING (auth.uid() = id)`. -/
def profilesSelfPolicy (caller : UserId) (row : Profile) : Bool :=
  caller == row.id

/-- Policy "Admins can view all profiles." —
`ON public.profiles FOR SELECT USING (public.is_admin(auth.uid()))`. -/
def profilesAdminPolicy (user_roles : List RoleRow) (caller : UserId)
    (_row : Profile) : Bool :=
  is_admin user_roles caller

/-- Postgres RLS composition for `public.profiles`: for a given operation
a row passes iff SOME policy applicable to that operation accepts it
(permissive policies are OR-ed). The self policy is `FOR ALL`; the admin
policy applies to SELECT only. -/
def profilesAllowed (user_roles : List RoleRow) (caller : UserId) (op : Op)
    (row : Profile) : Bool :=
  profilesSelfPolicy caller row ||
    (match op with
     | .select => profilesAdminPolicy user_roles caller row
     | _ => false)

/-- Policy "Users can view their own applications." —
`FOR SELECT USING (auth.uid() = user_id)`. -/
def applicationsSelfSelectPolicy (caller : UserId) (row : Application) : Bool :=
  caller == row.user_id

/-- Policy "Users can create their own applications." —
`FOR INSERT WITH CHECK (auth.uid() = user_id)`. -/
def applicationsSelfInsertPolicy (caller : UserId) (row : Application) : Bool :=
  caller == row.user_id

/-- Policy "Admins can manage all applications." —
`FOR ALL USING (public.is_admin(auth.uid()))`. -/
def applicationsAdminPolicy (user_roles : List RoleRow) (caller : UserId)
    (_row : Application) : Bool :=
  is_admin user_roles caller

/-- RLS composition for `public.membership_applications`: self policies
exist for SELECT and INSERT only; the admin policy is `FOR ALL`. -/
def applicationsAllowed (user_roles : List RoleRow) (caller : UserId) (op : Op)
    (row : Application) : Bool :=
  (match op with
   | .select => applicationsSelfSelectPolicy caller row
   | .insert => applicationsSelfInsertPolicy caller row
   | _ => false) || applicationsAdminPolicy user_roles caller row

/-- RLS composition for `public.user_roles`: the only policy is
"Admins can manage all user roles." — `FOR ALL USING (public.is_admin(auth.uid()))`. -/
def userRolesAllowed (user_roles : List RoleRow) (caller : UserId) (_op : Op)
    (_row : RoleRow) : Bool :=
  is_admin user_roles caller

/-- Rows of `profiles` a SELECT by `caller` returns (RLS filters the
table; a denied read yields zero rows, not an error). -/
def visibleProfiles (user_roles : List RoleRow) (caller : UserId)
    (profs : List Profile) : List Profile :=
  profs.filter (profilesAllowed user_roles caller .select)

/-- Rows of `membership_applications` a SELECT by `caller` returns. -/
def visibleApplications (user_roles : List RoleRow) (caller : UserId)
    (apps : List Application) : List Application :=
  apps.filter (applicationsAllowed user_roles caller .select)

/-- Rows of `user_roles` a SELECT by `caller` returns. -/
def visibleUserRoles (user_roles : List RoleRow) (caller : UserId) :
    List RoleRow :=
  user_roles.filter (userRolesAllowed user_roles caller .select)

/-- The three render states of `AdminProtectedRoute`: loading spinner,
protected outlet, redirect to the login page. -/
inductive GuardState
  | checking | authorized | denied
deriving DecidableEq, Repr

/-- An authenticated session, carrying its user identity
(`session.user.id` in the client code). -/
structure Session where
  userId : UserId
deriving DecidableEq, Repr

/-- `checkAdminStatus` from `useAdminAuth`: fetch the current session;
with no session set `isAdmin := false`; with a session invoke the
`is_admin` RPC for that session's user, and on any error from the call
set `isAdmin := false` (the catch block). The RPC round-trip is
modelled as `Except`: an `error` is a failed call. -/
def checkAdminStatus (session : Option Session)
    (rpcIsAdmin : UserId → Except String Bool) : Bool :=
  match session with
  | none => false
  | some s =>
    match rpcIsAdmin s.userId with
    | .ok b => b
    | .error _ => false

/-- The `onAuthStateChange` listener in `useAdminAuth`: on every auth
state change it re-runs `checkAdminStatus` against the new session; the
previous flag is discarded, not merged. -/
def onAuthStateChange (_previousIsAdmin : Bool) (newSession : Option Session)
    (rpcIsAdmin : UserId → Except String Bool) : Bool :=
  checkAdminStatus newSession rpcIsAdmin

/-- `AdminProtectedRoute`: while `loading` render the spinner; then
`!isAdmin` renders the redirect (denied); otherwise the outlet. -/
def adminProtectedRoute (loading : Bool) (isAdminFlag : Bool) : GuardState :=
  if loading then .checking
  else if !isAdminFlag then .denied
  else .authorized

/-- The toast `handleLogin` (AdminLoginPage) ends with. -/
inductive LoginMessage
  | invalidInput (msg : String)
  | loginFailed (msg : String)
  | accessDenied
  | welcomeAdmin
deriving DecidableEq, Repr

/-- Observable outcome of one `handleLogin` run: the toast shown,
whether `supabase.auth.signOut()` was called, whether an authenticated
session is still live when the handler returns, and whether it
navigated to `/admin/dashboard`. -/
structure LoginResult where
  message : LoginMessage
  signedOut : Bool
  sessionLive : Bool
  navigatedToDashboard : Bool
deriving DecidableEq, Repr

/-- `handleLogin` from `AdminLoginPage`: zod validation short-circuits
before any network call; a `signInWithPassword` error or null user is
thrown and caught as "login failed" (no session); on a live session the
`is_admin` RPC decides: an RPC error is thrown and caught as "login
failed" (the catch block performs no sign-out, so the session stays
live); `is_admin = true` navigates to the dashboard; `is_admin = false`
signs out and shows the generic access-denied toast. -/
def handleLogin (validation : Except String Unit)
    (signIn : Except String (Option UserId))
    (rpcIsAdmin : UserId → Except String Bool) : LoginResult :=
  match validation with
  | .error msg => ⟨.invalidInput msg, false, false, false⟩
  | .ok () =>
    match signIn with
    | .error e => ⟨.loginFailed e, false, false, false⟩
    | .ok none =>
      ⟨.loginFailed "Login failed, please try again.", false, false, false⟩
    | .ok (some uid) =>
      match rpcIsAdmin uid with
      | .error e => ⟨.loginFailed e, false, true, false⟩
      | .ok true => ⟨.welcomeAdmin, false, true, true⟩
      | .ok false => ⟨.accessDenied, true, false, false⟩

/-- `ITEMS_PER_PAGE` in MembersTable and ApplicationsTable. -/
def ITEMS_PER_PAGE : Nat := 10

/-- Insert one application into a list already sorted by `created_at`
descending, keeping it sorted. -/
def insertByCreatedDesc (a : Application) :
    List Application → List Application
  | [] => [a]
  | b :: rest =>
    if a.created_at ≤ b.created_at then b :: insertByCreatedDesc a rest
    else a :: b :: rest

/-- The backend's `.order("created_at", { ascending: false })`: the
rows sorted by creation time descending. -/
def orderByCreatedDesc : List Application → List Application
  | [] => []
  | a :: rest => insertByCreatedDesc a (orderByCreatedDesc rest)

/-- The PostgREST `.eq("status", s)` filter: a row matches when its
status column equals the text `s`; a NULL status matches nothing. -/
def matchesStatusFilter (a : Application) (s : String) : Bool :=
  match a.status with
  | some st => statusToString st == s
  | none => false

/-- `.range(firstIdx, lastIdx)` on an ordered result set: the
zero-indexed inclusive row window. A window past the end is empty, not
an error. -/
def rangeWindow (ordered : List Application) (firstIdx lastIdx : Nat) :
    List Application :=
  (ordered.drop firstIdx).take (lastIdx + 1 - firstIdx)

/-- Result of `fetchApplications`: the row window plus the exact total
count returned by `{ count: "exact" }`. -/
structure FetchApplicationsResult where
  applications : List Application
  count : Nat
deriving DecidableEq, Repr

/-- `fetchApplications({ page, status })` from ApplicationsTable:
`from = (page - 1) * ITEMS_PER_PAGE`, `to = from + ITEMS_PER_PAGE - 1`;
an `.eq("status", status)` filter is added unless `status = "all"`; a
single request returns the exact count of the filtered rows together
with the `.order("created_at", desc).range(from, to)` window. The
joined profile columns are a projection of the same rows and are
elided. -/
def fetchApplications (page : Nat) (status : String)
    (table : List Application) : FetchApplicationsResult :=
  let firstIdx := (page - 1) * ITEMS_PER_PAGE
  let lastIdx := firstIdx + ITEMS_PER_PAGE - 1
  let filtered :=
    if status == "all" then table
    else table.filter (fun a => matchesStatusFilter a status)
  { applications := rangeWindow (orderByCreatedDesc filtered) firstIdx lastIdx,
    count := filtered.length }

/-- Result of `fetchMembers`: the row window plus the exact count. -/
structure FetchMembersResult where
  members : List Application
  count : Nat
deriving DecidableEq, Repr

/-- `fetchMembers({ page })` from MembersTable: the same window
arithmetic with a fixed `.eq("status", "approved")` filter; one request
returns the exact count of approved rows together with the ordered
window (joined profile columns elided). -/
def fetchMembers (page : Nat) (table : List Application) :
    FetchMembersResult :=
  let firstIdx := (page - 1) * ITEMS_PER_PAGE
  let lastIdx := firstIdx + ITEMS_PER_PAGE - 1
  let filtered := table.filter (fun a => matchesStatusFilter a "approved")
  { members := rangeWindow (orderByCreatedDesc filtered) firstIdx lastIdx,
    count := filtered.length }

/-- `fetchRecentApplications` from RecentApplicationsTable: one request
for the newest 5 applications (`.order("created_at", desc).limit(5)`)
with no page argument, no status filter and no row count, followed by a
second request for the matching profiles (elided). Modelled as the
application rows returned. -/
def fetchRecentApplications (table : List Application) : List Application :=
  (orderByCreatedDesc table).take 5

/-- The paginated/filtered contract of spec section 4.4, written from
the spec's words for comparison with the call sites: a 1-indexed page,
an optional status filter, fixed page size 10, a single request
combining the exact row count with the row window ordered by creation
time descending. -/
def specPaginatedContract (page : Nat) (statusFilter : Option String)
    (table : List Application) : FetchApplicationsResult :=
  let filtered :=
    match statusFilter with
    | none => table
    | some s => table.filter (fun a => matchesStatusFilter a s)
  let ordered := orderByCreatedDesc filtered
  { applications := (ordered.drop ((page - 1) * 10)).take 10,
    count := filtered.length }

/-- A concrete dataset of six approved applications, all owned by user
1, with distinct creation times. -/
def sixApprovedApplications : List Application :=
  (List.range 6).map
    (fun i => ⟨i, 1, .basic, 100, none, some .approved, none, i, i⟩)

/-- `updateApplicationStatus({ id, status })` (ApplicationsTable and
RecentApplicationsTable): `.update({ status }).eq("id", id)` — set only
the status column of the rows whose id equals `id`. -/
def updateApplicationStatus (table : List Application) (id : Nat)
    (status : AppStatus) : List Application :=
  table.map (fun a => if a.id == id then { a with status := some status } else a)

/-- The round-trip of the update call: a backend error is re-thrown
(`if (error) throw error`) and the table is untouched; success applies
the patch. -/
def updateApplicationStatusCall (backendError : Option String)
    (table : List Application) (id : Nat) (status : AppStatus) :
    Except String Unit × List Application :=
  match backendError with
  | some e => (.error e, table)
  | none => (.ok (), updateApplicationStatus table id status)

/-- A row of `auth.users` (the external auth collaborator): identity
and email. -/
structure AuthUser where
  id : UserId
  email : String
deriving DecidableEq, Repr

/-- The database state touched by the add_admin_role migration. -/
structure BootstrapState where
  authUsers : List AuthUser
  userRoles : List RoleRow
deriving DecidableEq, Repr

/-- The `RAISE NOTICE` the DO block emits. -/
inductive BootstrapNotice
  | adminAssigned (email : String)
  | userNotFound (email : String)
deriving DecidableEq, Repr

/-- `SELECT id INTO user_id_to_set FROM auth.users WHERE email = ...`. -/
def findUserIdByEmail (users : List AuthUser) (email : String) :
    Option UserId :=
  (users.find? (fun u => u.email == email)).map (fun u => u.id)

/-- `INSERT INTO public.user_roles (user_id, role) VALUES (uid, 'admin')
ON CONFLICT (user_id, role) DO NOTHING` under `UNIQUE(user_id, role)`:
a duplicate (user_id, role) pair is a no-op, not an error. `freshId`
and `freshTime` stand for the generated primary key and `now()`. -/
def insertAdminRoleOnConflict (roles : List RoleRow) (uid : UserId)
    (freshId freshTime : Nat) : List RoleRow :=
  if roles.any (fun r => r.user_id == uid && r.role == "admin") then roles
  else roles ++ [⟨freshId, uid, "admin", freshTime⟩]

/-- The DO block of the add_admin_role migration: look up the identity
for `email`; when absent emit the not-found notice and change nothing;
when present insert the admin Role Grant, duplicates being no-ops. -/
def bootstrapAdmin (st : BootstrapState) (email : String)
    (freshId freshTime : Nat) : BootstrapState × BootstrapNotice :=
  match findUserIdByEmail st.authUsers email with
  | none => (st, .userNotFound email)
  | some uid =>
    ({ st with
        userRoles := insertAdminRoleOnConflict st.userRoles uid freshId freshTime },
     .adminAssigned email)

/-- Number of (uid, "admin") Role Grant rows in the table. -/
def adminRowCount (roles : List RoleRow) (uid : UserId) : Nat :=
  (roles.filter (fun r => r.user_id == uid && r.role == "admin")).length

/-- A storage object: its bucket, its path split into segments, and the
metadata checked at upload time. -/
structure StorageObject where
  bucket_id : String
  pathSegments : List String
  byteSize : Nat
  mimeType : String
deriving DecidableEq, Repr

/-- `storage.foldername(name)`: the folder components of the path — the
segments minus the final file name. -/
def foldername (pathSegments : List String) : List String :=
  pathSegments.dropLast

/-- A `storage.buckets` row. -/
structure Bucket where
  id : String
  name : String
  isPublic : Bool
  file_size_limit : Nat
  allowed_mime_types : List String
deriving DecidableEq, Repr

/-- The `aadhar-cards` bucket as inserted by the migration: public
read, 5242880-byte limit, three allowed content types. -/
def aadharCardsBucket : Bucket :=
  ⟨"aadhar-cards", "aadhar-cards", true, 5242880,
   ["image/jpeg", "image/png", "application/pdf"]⟩

/-- The common predicate of the three `storage.objects` policies
("Users can upload/view/update their own aadhar card", each
`TO authenticated`): the caller is authenticated, the object lies in
the aadhar-cards bucket, and the first folder of its path equals
`auth.uid()::text`. -/
def aadharObjectSelfPolicy (caller : Option UserId) (obj : StorageObject) :
    Bool :=
  match caller with
  | none => false
  | some uid =>
    obj.bucket_id == "aadhar-cards" &&
      (foldername obj.pathSegments).head? == some (toString uid)

/-- RLS composition on `storage.objects` for this bucket: INSERT,
SELECT and UPDATE each have exactly the self policy; no admin policy
exists, and DELETE has no policy at all. -/
def storageObjectAllowed (caller : Option UserId) (op : Op)
    (obj : StorageObject) : Bool :=
  match op with
  | .insert => aadharObjectSelfPolicy caller obj
  | .select => aadharObjectSelfPolicy caller obj
  | .update => aadharObjectSelfPolicy caller obj
  | .delete => false

/-- The bucket-level upload constraints (`file_size_limit` and
`allowed_mime_types`). -/
def uploadWithinBucketLimits (b : Bucket) (obj : StorageObject) : Bool :=
  decide (obj.byteSize ≤ b.file_size_limit) &&
    b.allowed_mime_types.contains obj.mimeType

/-- Public-URL read: a bucket created with `public = true` serves any
object in it to any requester, with no `storage.objects` policy
consulted. -/
def publicUrlReadable (b : Bucket) (obj : StorageObject) : Bool :=
  b.isPublic && obj.bucket_id == b.id

end Temple

namespace Temple

/-- C1: `is_admin(I)` is true iff a `(I, "admin")` row exists in
`user_roles`; an identity with no rows at all (including one that does
not exist) yields `false`, not an error, and the table is read-only in
the call. -/
theorem is_admin_iff_admin_row (user_roles : List RoleRow) (I : UserId) :
    (is_admin user_roles I = true ↔
      ∃ r ∈ user_roles, r.user_id = I ∧ r.role = "admin") ∧
    ((∀ r ∈ user_roles, r.user_id ≠ I) → is_admin user_roles I = false) := by
  constructor
  · simp [is_admin, List.any_eq_true, Bool.and_eq_true, beq_iff_eq]
  · intro h
    simp only [is_admin, List.any_eq_false]
    intro r hr
    simp [Bool.and_eq_true, beq_iff_eq]
    intro hid
    exact absurd hid (h r hr)

/-- C1 witness: on a concrete two-row table, `is_admin` answers true for
the granted identity and false for an identity with no rows. -/
theorem is_admin_iff_admin_row_witness :
    (is_admin [⟨0, 1, "admin", 0⟩, ⟨1, 2, "moderator", 0⟩] 1 = true ↔
      ∃ r ∈ [(⟨0, 1, "admin", 0⟩ : RoleRow), ⟨1, 2, "moderator", 0⟩],
        r.user_id = 1 ∧ r.role = "admin") ∧
    ((∀ r ∈ [(⟨0, 1, "admin", 0⟩ : RoleRow), ⟨1, 2, "moderator", 0⟩],
        r.user_id ≠ 9) →
      is_admin [⟨0, 1, "admin", 0⟩, ⟨1, 2, "moderator", 0⟩] 9 = false) :=
  ⟨(is_admin_iff_admin_row [⟨0, 1, "admin", 0⟩, ⟨1, 2, "moderator", 0⟩] 1).1,
   (is_admin_iff_admin_row [⟨0, 1, "admin", 0⟩, ⟨1, 2, "moderator", 0⟩] 9).2⟩

/-- C2 counterexample: access is NOT the OR of the self-access predicate
and the admin predicate for every protected table operation. For the
`user_roles` table, a non-admin caller 1 selecting their own role row
(so the self-access predicate holds and the OR is true) still gets zero
rows, because the only policy on `user_roles` is the admin one. -/
theorem rls_not_self_or_admin_everywhere :
    ((1 : UserId) == (⟨0, 1, "moderator", 0⟩ : RoleRow).user_id) = true ∧
    is_admin [⟨0, 1, "moderator", 0⟩] 1 = false ∧
    userRolesAllowed [⟨0, 1, "moderator", 0⟩] 1 .select ⟨0, 1, "moderator", 0⟩
      = false ∧
    visibleUserRoles [⟨0, 1, "moderator", 0⟩] 1 = [] := by
  decide

/-- C2 amended: per operation, access is the OR of exactly the policies
declared for that table and operation (profiles: self on all operations
plus admin on select; applications: self on select/insert plus admin on
all; role grants: admin only). Consequently Profile/Application SELECT
access is self OR admin; when no predicate holds an operation is denied
(reads filter to zero rows, writes rejected); a non-admin reading
another identity's Profile/Application rows gets zero rows; and an admin
read returns all rows regardless of owning identity. -/
theorem rls_policy_composition (user_roles : List RoleRow) (caller : UserId)
    (profs : List Profile) (apps : List Application) :
    (∀ row, profilesAllowed user_roles caller .select row =
        ((caller == row.id) || is_admin user_roles caller)) ∧
    (∀ row, applicationsAllowed user_roles caller .select row =
        ((caller == row.user_id) || is_admin user_roles caller)) ∧
    (is_admin user_roles caller = false →
      visibleProfiles user_roles caller profs =
        profs.filter (fun p => caller == p.id) ∧
      visibleApplications user_roles caller apps =
        apps.filter (fun a => caller == a.user_id)) ∧
    (is_admin user_roles caller = false → (∀ p ∈ profs, p.id ≠ caller) →
      visibleProfiles user_roles caller profs = []) ∧
    (is_admin user_roles caller = false → (∀ a ∈ apps, a.user_id ≠ caller) →
      visibleApplications user_roles caller apps = []) ∧
    (is_admin user_roles caller = true →
      visibleProfiles user_roles caller profs = profs ∧
      visibleApplications user_roles caller apps = apps) ∧
    (∀ op row, ((caller == row.id) || is_admin user_roles caller) = false →
      profilesAllowed user_roles caller op row = false) ∧
    (∀ op row, ((caller == row.user_id) || is_admin user_roles caller) = false →
      applicationsAllowed user_roles caller op row = false) := by
  refine ⟨fun row => rfl, fun row => rfl, ?_, ?_, ?_, ?_, ?_, ?_⟩
  · intro h
    constructor
    · refine List.filter_congr ?_
      intro p _
      simp [profilesAllowed, profilesSelfPolicy, profilesAdminPolicy, h]
    · refine List.filter_congr ?_
      intro a _
      simp [applicationsAllowed, applicationsSelfSelectPolicy,
        applicationsAdminPolicy, h]
  · intro h hall
    simp only [visibleProfiles, List.filter_eq_nil_iff]
    intro p hp
    simp [profilesAllowed, profilesSelfPolicy, profilesAdminPolicy, h]
    exact fun he => absurd he.symm (hall p hp)
  · intro h hall
    simp only [visibleApplications, List.filter_eq_nil_iff]
    intro a ha
    simp [applicationsAllowed, applicationsSelfSelectPolicy,
      applicationsAdminPolicy, h]
    exact fun he => absurd he.symm (hall a ha)
  · intro h
    constructor
    · simp [visibleProfiles, List.filter_eq_self, profilesAllowed,
        profilesSelfPolicy, profilesAdminPolicy, h]
    · simp [visibleApplications, List.filter_eq_self, applicationsAllowed,
        applicationsSelfSelectPolicy, applicationsAdminPolicy, h]
  · intro op row h
    rw [Bool.or_eq_false_iff] at h
    cases op <;>
      simp [profilesAllowed, profilesSelfPolicy, profilesAdminPolicy, h.1, h.2]
  · intro op row h
    rw [Bool.or_eq_false_iff] at h
    cases op <;>
      simp [applicationsAllowed, applicationsSelfSelectPolicy,
        applicationsSelfInsertPolicy, applicationsAdminPolicy, h.1, h.2]

/-- C2 amended witness: caller 3 is not an admin under the empty role
table, owns none of the concrete profile rows, and indeed sees zero
Profile rows. -/
theorem rls_policy_composition_witness :
    is_admin ([] : List RoleRow) 3 = false ∧
    ((∀ p ∈ [(⟨2, "Asha", "asha@example.com", "99", 0, "addr", "city", "st",
        "00", "ec", "ep", "aad", none, 0, 0⟩ : Profile)], p.id ≠ 3) →
      visibleProfiles [] 3
        [⟨2, "Asha", "asha@example.com", "99", 0, "addr", "city", "st",
          "00", "ec", "ep", "aad", none, 0, 0⟩] = []) :=
  ⟨by decide,
   (rls_policy_composition [] 3
      [⟨2, "Asha", "asha@example.com", "99", 0, "addr", "city", "st",
        "00", "ec", "ep", "aad", none, 0, 0⟩] []).2.2.2.1 (by decide)⟩

/-- C3: once the check has completed, the admin route guard is in the
authorized state iff a session exists and the role-check RPC returned
`ok true`; with no session it is denied; an RPC error yields denied
(fail closed), never authorized; after loading the guard is always
either authorized or denied; and on every auth state change the check
is re-run on the new session, superseding the previous flag. -/
theorem admin_guard_fail_closed (session : Option Session)
    (rpc : UserId → Except String Bool) (previousFlag : Bool) :
    (adminProtectedRoute false (checkAdminStatus session rpc) = .authorized ↔
      ∃ s, session = some s ∧ rpc s.userId = .ok true) ∧
    (session = none →
      adminProtectedRoute false (checkAdminStatus session rpc) = .denied) ∧
    (∀ s e, session = some s → rpc s.userId = .error e →
      adminProtectedRoute false (checkAdminStatus session rpc) = .denied) ∧
    (∀ b, adminProtectedRoute false b = .authorized ∨
      adminProtectedRoute false b = .denied) ∧
    onAuthStateChange previousFlag session rpc = checkAdminStatus session rpc := by
  refine ⟨?_, ?_, ?_, ?_, rfl⟩
  · cases session with
    | none => simp [checkAdminStatus, adminProtectedRoute]
    | some s =>
      cases h : rpc s.userId with
      | ok b =>
        cases b <;> simp [checkAdminStatus, adminProtectedRoute, h]
      | error e => simp [checkAdminStatus, adminProtectedRoute, h]
  · intro h
    subst h
    simp [checkAdminStatus, adminProtectedRoute]
  · intro s e hs he
    subst hs
    simp [checkAdminStatus, adminProtectedRoute, he]
  · intro b
    cases b <;> simp [adminProtectedRoute]

/-- C3 witness: with a live session for user 7 and an RPC that fails,
the guard lands in the denied state. -/
theorem admin_guard_fail_closed_witness :
    (some (⟨7⟩ : Session) = some ⟨7⟩) ∧
    ((fun _ : UserId => (Except.error "network" : Except String Bool)) 7
      = Except.error "network") ∧
    adminProtectedRoute false
      (checkAdminStatus (some ⟨7⟩) (fun _ => Except.error "network"))
      = GuardState.denied :=
  ⟨rfl, rfl,
   (admin_guard_fail_closed (some ⟨7⟩) (fun _ => Except.error "network")
      true).2.2.1 ⟨7⟩ "network" rfl rfl⟩

/-- C4 counterexample: when authentication succeeds for user 7 but the
role-check RPC itself fails, `handleLogin` does NOT sign out — the
caught error shows a "login failed" toast and the session stays live —
contradicting the claim that the session is terminated in that case
too. -/
theorem login_rpc_failure_keeps_session :
    (handleLogin (.ok ()) (.ok (some 7))
        (fun _ => .error "rpc failure")).signedOut = false ∧
    (handleLogin (.ok ()) (.ok (some 7))
        (fun _ => .error "rpc failure")).sessionLive = true ∧
    (handleLogin (.ok ()) (.ok (some 7))
        (fun _ => .error "rpc failure")).message
      = .loginFailed "rpc failure" :=
  ⟨rfl, rfl, rfl⟩

/-- C4 amended: when a login attempt authenticates successfully and the
role check returns false, `handleLogin` signs the session out, leaves
no live session, shows the generic access-denied message and does not
navigate to the dashboard. When the role-check call itself fails,
however, the handler shows a login-failure message without signing out,
so the session remains live. -/
theorem login_denies_non_admin (signInUser : UserId)
    (rpc : UserId → Except String Bool) :
    (rpc signInUser = .ok false →
      handleLogin (.ok ()) (.ok (some signInUser)) rpc =
        ⟨.accessDenied, true, false, false⟩) ∧
    (∀ e, rpc signInUser = .error e →
      handleLogin (.ok ()) (.ok (some signInUser)) rpc =
        ⟨.loginFailed e, false, true, false⟩) := by
  constructor
  · intro h
    simp [handleLogin, h]
  · intro e h
    simp [handleLogin, h]

/-- C4 amended witness: a concrete non-admin user 4 is signed out with
the access-denied toast. -/
theorem login_denies_non_admin_witness :
    ((fun _ : UserId => (Except.ok false : Except String Bool)) 4
      = Except.ok false) ∧
    handleLogin (.ok ()) (.ok (some 4)) (fun _ => Except.ok false) =
      ⟨.accessDenied, true, false, false⟩ :=
  ⟨rfl, (login_denies_non_admin 4 (fun _ => Except.ok false)).1 rfl⟩

theorem length_insertByCreatedDesc (a : Application) (l : List Application) :
    (insertByCreatedDesc a l).length = l.length + 1 := by
  induction l with
  | nil => rfl
  | cons b rest ih =>
    simp only [insertByCreatedDesc]
    by_cases h : a.created_at ≤ b.created_at
    · simp [h, ih]
    · simp [h]

theorem length_orderByCreatedDesc (l : List Application) :
    (orderByCreatedDesc l).length = l.length := by
  induction l with
  | nil => rfl
  | cons a rest ih =>
    simp [orderByCreatedDesc, length_insertByCreatedDesc, ih]

theorem mem_insertByCreatedDesc (a b : Application) (l : List Application) :
    b ∈ insertByCreatedDesc a l ↔ b = a ∨ b ∈ l := by
  induction l with
  | nil => simp [insertByCreatedDesc]
  | cons c rest ih =>
    simp only [insertByCreatedDesc]
    by_cases h : a.created_at ≤ c.created_at
    · simp [h, List.mem_cons, ih]
      tauto
    · simp [h, List.mem_cons]

theorem mem_orderByCreatedDesc (b : Application) (l : List Application) :
    b ∈ orderByCreatedDesc l ↔ b ∈ l := by
  induction l with
  | nil => simp [orderByCreatedDesc]
  | cons a rest ih =>
    simp [orderByCreatedDesc, mem_insertByCreatedDesc, ih]

theorem rangeWindow_page (l : List Application) (p : Nat) :
    rangeWindow l ((p - 1) * 10) ((p - 1) * 10 + 10 - 1) =
      (l.drop ((p - 1) * 10)).take 10 := by
  unfold rangeWindow
  congr 1
  omega

theorem window_length_core (filtered : List Application) (p : Nat) :
    (rangeWindow (orderByCreatedDesc filtered) ((p - 1) * 10)
        ((p - 1) * 10 + 10 - 1)).length =
      min 10 (filtered.length - 10 * (p - 1)) := by
  rw [rangeWindow_page, List.length_take, List.length_drop,
    length_orderByCreatedDesc, Nat.mul_comm]

/-- C5: for page `P ≥ 1` the two paginated fetches return exactly
`min(10, max(0, N - 10*(P-1)))` rows (truncated subtraction plays the
role of the `max 0`) together with the exact count `N` of the rows
surviving the status filter; a page beyond `ceil(N/10)` yields zero
rows without error; and a zero-result dataset yields an empty window
with count 0. -/
theorem paginated_window_size (P : Nat) (s : String) (t : List Application)
    (hP : 1 ≤ P) :
    ((fetchApplications P s t).count =
        (if s == "all" then t
         else t.filter (fun a => matchesStatusFilter a s)).length ∧
      (fetchApplications P s t).applications.length =
        min 10 ((fetchApplications P s t).count - 10 * (P - 1)) ∧
      (((fetchApplications P s t).count + 9) / 10 < P →
        (fetchApplications P s t).applications = []) ∧
      ((fetchApplications P s t).count = 0 →
        (fetchApplications P s t).applications = [])) ∧
    ((fetchMembers P t).count =
        (t.filter (fun a => matchesStatusFilter a "approved")).length ∧
      (fetchMembers P t).members.length =
        min 10 ((fetchMembers P t).count - 10 * (P - 1)) ∧
      (((fetchMembers P t).count + 9) / 10 < P →
        (fetchMembers P t).members = []) ∧
      ((fetchMembers P t).count = 0 → (fetchMembers P t).members = [])) := by
  have happ : (fetchApplications P s t).applications.length =
      min 10 ((fetchApplications P s t).count - 10 * (P - 1)) := by
    simp only [fetchApplications, ITEMS_PER_PAGE]
    exact window_length_core _ P
  have hmem : (fetchMembers P t).members.length =
      min 10 ((fetchMembers P t).count - 10 * (P - 1)) := by
    simp only [fetchMembers, ITEMS_PER_PAGE]
    exact window_length_core _ P
  refine ⟨⟨rfl, happ, ?_, ?_⟩, ⟨rfl, hmem, ?_, ?_⟩⟩
  · intro h
    have h0 : (fetchApplications P s t).count - 10 * (P - 1) = 0 := by omega
    rw [← List.length_eq_zero, happ, h0]
    simp
  · intro h
    have h0 : (fetchApplications P s t).count - 10 * (P - 1) = 0 := by omega
    rw [← List.length_eq_zero, happ, h0]
    simp
  · intro h
    have h0 : (fetchMembers P t).count - 10 * (P - 1) = 0 := by omega
    rw [← List.length_eq_zero, hmem, h0]
    simp
  · intro h
    have h0 : (fetchMembers P t).count - 10 * (P - 1) = 0 := by omega
    rw [← List.length_eq_zero, hmem, h0]
    simp

/-- C5 witness: on the six-row approved dataset, page 2 of the
application list holds `min(10, 6 - 10) = 0` rows. -/
theorem paginated_window_size_witness :
    1 ≤ 2 ∧
    (fetchApplications 2 "all" sixApprovedApplications).applications.length =
      min 10 ((fetchApplications 2 "all" sixApprovedApplications).count
        - 10 * (2 - 1)) :=
  ⟨by decide,
   (paginated_window_size 2 "all" sixApprovedApplications (by decide)).1.2.1⟩

/-- C8 counterexample: the recent-applications widget does not use the
paginated contract shape. On the six-row dataset it returns 5 rows and
no count, while the contract (page size 10 with exact count) returns
all 6 rows with count 6 on page 1 and zero rows on any later page, so
the widget's output matches no page of the contract. -/
theorem recent_widget_not_contract_shaped :
    (fetchRecentApplications sixApprovedApplications).length = 5 ∧
    (specPaginatedContract 1 none sixApprovedApplications).applications.length
      = 6 ∧
    (specPaginatedContract 1 none sixApprovedApplications).count = 6 ∧
    (specPaginatedContract 2 none sixApprovedApplications).applications = [] ∧
    fetchRecentApplications sixApprovedApplications ≠
      (specPaginatedContract 1 none sixApprovedApplications).applications := by
  decide

/-- C8 amended: the 1-indexed page / optional status filter / page size
10 / single count-plus-window request ordered by creation time
descending is the shape of `fetchApplications` (filter `"all"` meaning
no status narrowing) and of `fetchMembers` (filter fixed to
`"approved"`) — but not of the recent-applications widget, which issues
a fixed newest-5 query with no page, no filter and no count. -/
theorem paginated_contract_shared (page : Nat) (s : String)
    (t : List Application) (h : s ≠ "all") :
    fetchApplications page "all" t = specPaginatedContract page none t ∧
    fetchApplications page s t = specPaginatedContract page (some s) t ∧
    (fetchMembers page t).members =
      (specPaginatedContract page (some "approved") t).applications ∧
    (fetchMembers page t).count =
      (specPaginatedContract page (some "approved") t).count := by
  have hb : (s == "all") = false := by
    simp [h]
  have hw : ∀ (l : List Application),
      rangeWindow (orderByCreatedDesc l) ((page - 1) * 10)
          ((page - 1) * 10 + 10 - 1) =
        ((orderByCreatedDesc l).drop ((page - 1) * 10)).take 10 :=
    fun l => rangeWindow_page (orderByCreatedDesc l) page
  refine ⟨?_, ?_, ?_, rfl⟩
  · simp only [fetchApplications, specPaginatedContract, ITEMS_PER_PAGE, hw]
    simp
  · simp only [fetchApplications, specPaginatedContract, ITEMS_PER_PAGE, hw, hb]
    simp
  · simp only [fetchMembers, specPaginatedContract, ITEMS_PER_PAGE, hw]

/-- C8 amended witness: page 1 of the application list with the
`"approved"` filter coincides with the spec contract on the concrete
dataset. -/
theorem paginated_contract_shared_witness :
    ("approved" : String) ≠ "all" ∧
    fetchApplications 1 "all" sixApprovedApplications =
      specPaginatedContract 1 none sixApprovedApplications :=
  ⟨by decide,
   (paginated_contract_shared 1 "approved" sixApprovedApplications
      (by decide)).1⟩

theorem matchesStatusFilter_approved (a : Application) :
    matchesStatusFilter a "approved" = (a.status == some AppStatus.approved) := by
  cases h : a.status with
  | none => simp [matchesStatusFilter, h]
  | some st => cases st <;> simp [matchesStatusFilter, statusToString, h]

/-- C9: every row the member-list fetch returns has status approved —
pending and rejected applications never appear — and the count it
returns is the number of approved applications in the table. -/
theorem members_only_approved (page : Nat) (t : List Application) :
    (∀ a ∈ (fetchMembers page t).members,
      a.status = some AppStatus.approved) ∧
    (fetchMembers page t).count =
      (t.filter (fun a => a.status == some AppStatus.approved)).length := by
  constructor
  · intro a ha
    have h1 : a ∈ orderByCreatedDesc
        (t.filter (fun x => matchesStatusFilter x "approved")) :=
      List.mem_of_mem_drop (List.mem_of_mem_take ha)
    rw [mem_orderByCreatedDesc] at h1
    have h2 := (List.mem_filter.mp h1).2
    rw [matchesStatusFilter_approved] at h2
    exact eq_of_beq h2
  · simp only [fetchMembers]
    exact congrArg List.length
      (List.filter_congr (fun a _ => matchesStatusFilter_approved a))

/-- C9 witness: on a two-row table with one pending and one approved
application, the member list exposes only the approved row and counts
exactly one member. -/
theorem members_only_approved_witness :
    (∀ a ∈ (fetchMembers 1
        [⟨0, 1, .basic, 100, none, some .pending, none, 0, 0⟩,
         ⟨1, 1, .basic, 100, none, some .approved, none, 1, 1⟩]).members,
      a.status = some AppStatus.approved) ∧
    (fetchMembers 1
        [⟨0, 1, .basic, 100, none, some .pending, none, 0, 0⟩,
         ⟨1, 1, .basic, 100, none, some .approved, none, 1, 1⟩]).count =
      ([⟨0, 1, .basic, 100, none, some .pending, none, 0, 0⟩,
        (⟨1, 1, .basic, 100, none, some .approved, none, 1, 1⟩ :
          Application)].filter
        (fun a => a.status == some AppStatus.approved)).length :=
  members_only_approved 1
    [⟨0, 1, .basic, 100, none, some .pending, none, 0, 0⟩,
     ⟨1, 1, .basic, 100, none, some .approved, none, 1, 1⟩]

theorem any_admin_iff_count_pos (roles : List RoleRow) (uid : UserId) :
    roles.any (fun r => r.user_id == uid && r.role == "admin") = true ↔
      0 < adminRowCount roles uid := by
  rw [List.any_eq_true]
  constructor
  · rintro ⟨r, hr, hp⟩
    exact List.length_pos.mpr
      (List.ne_nil_of_mem (List.mem_filter.mpr ⟨hr, hp⟩))
  · intro h
    obtain ⟨r, hr⟩ := List.exists_mem_of_length_pos h
    have := List.mem_filter.mp hr
    exact ⟨r, this.1, this.2⟩

theorem adminRowCount_insert (roles : List RoleRow) (uid : UserId)
    (fid ft : Nat) (h : adminRowCount roles uid ≤ 1) :
    adminRowCount (insertAdminRoleOnConflict roles uid fid ft) uid = 1 := by
  by_cases hx :
      roles.any (fun r => r.user_id == uid && r.role == "admin") = true
  · rw [insertAdminRoleOnConflict, if_pos hx]
    have := (any_admin_iff_count_pos roles uid).mp hx
    omega
  · rw [insertAdminRoleOnConflict, if_neg hx]
    rw [Bool.not_eq_true, List.any_eq_false] at hx
    have h0 : roles.filter (fun r => r.user_id == uid && r.role == "admin")
        = [] :=
      List.filter_eq_nil_iff.mpr hx
    simp [adminRowCount, List.filter_append, h0]

/-- C6: the admin bootstrap script is idempotent. With no identity for
the email it emits the not-found notice and leaves the state untouched.
With an identity whose grant-count respects the `UNIQUE(user_id, role)`
invariant, one run leaves exactly one (identity, "admin") Role Grant
row; a second run is a complete no-op on the state, the duplicate grant
being absorbed by `ON CONFLICT DO NOTHING` rather than erroring. -/
theorem bootstrap_idempotent (st : BootstrapState) (email : String)
    (fid1 ft1 fid2 ft2 : Nat) :
    (findUserIdByEmail st.authUsers email = none →
      bootstrapAdmin st email fid1 ft1 = (st, .userNotFound email)) ∧
    (∀ uid, findUserIdByEmail st.authUsers email = some uid →
      adminRowCount st.userRoles uid ≤ 1 →
      adminRowCount (bootstrapAdmin st email fid1 ft1).1.userRoles uid = 1 ∧
      (bootstrapAdmin st email fid1 ft1).2 = .adminAssigned email ∧
      bootstrapAdmin (bootstrapAdmin st email fid1 ft1).1 email fid2 ft2 =
        ((bootstrapAdmin st email fid1 ft1).1, .adminAssigned email)) := by
  constructor
  · intro h
    simp [bootstrapAdmin, h]
  · intro uid hfind hle
    have h1 : bootstrapAdmin st email fid1 ft1 =
        ({ st with
            userRoles := insertAdminRoleOnConflict st.userRoles uid fid1 ft1 },
         .adminAssigned email) := by
      simp [bootstrapAdmin, hfind]
    have hcount :
        adminRowCount (insertAdminRoleOnConflict st.userRoles uid fid1 ft1)
          uid = 1 :=
      adminRowCount_insert st.userRoles uid fid1 ft1 hle
    refine ⟨by rw [h1]; exact hcount, by rw [h1], ?_⟩
    rw [h1]
    have hfind2 : findUserIdByEmail
        ({ st with
            userRoles := insertAdminRoleOnConflict st.userRoles uid fid1 ft1 } :
          BootstrapState).authUsers email = some uid := hfind
    have hx : (insertAdminRoleOnConflict st.userRoles uid fid1 ft1).any
        (fun r => r.user_id == uid && r.role == "admin") = true :=
      (any_admin_iff_count_pos _ uid).mpr (by omega)
    have hnoop : insertAdminRoleOnConflict
        (insertAdminRoleOnConflict st.userRoles uid fid1 ft1) uid fid2 ft2 =
        insertAdminRoleOnConflict st.userRoles uid fid1 ft1 := by
      rw [insertAdminRoleOnConflict, if_pos hx]
    simp [bootstrapAdmin, hfind2, hnoop]

/-- C6 witness: bootstrapping a one-user database with an empty role
table leaves exactly one (5, "admin") row. -/
theorem bootstrap_idempotent_witness :
    findUserIdByEmail [⟨5, "a@b.c"⟩] "a@b.c" = some 5 ∧
    adminRowCount ([] : List RoleRow) 5 ≤ 1 ∧
    adminRowCount
      (bootstrapAdmin ⟨[⟨5, "a@b.c"⟩], []⟩ "a@b.c" 0 0).1.userRoles 5 = 1 :=
  ⟨by decide, by decide,
   ((bootstrap_idempotent ⟨[⟨5, "a@b.c"⟩], []⟩ "a@b.c" 0 0 1 1).2 5
      (by decide) (by decide)).1⟩

/-- C7 counterexample: the bucket is created with `public = true`, so
an object stored under identity 1's prefix is served to any requester
through the public URL — even though the authenticated storage API
denies identity 2's SELECT — contradicting "readable only by the
identity matching P". -/
theorem aadhar_public_read_breaks_ownership :
    aadharCardsBucket.isPublic = true ∧
    publicUrlReadable aadharCardsBucket
      ⟨"aadhar-cards", ["1", "card.pdf"], 1000, "application/pdf"⟩ = true ∧
    storageObjectAllowed (some 2) .select
      ⟨"aadhar-cards", ["1", "card.pdf"], 1000, "application/pdf"⟩ = false := by
  decide

/-- C7 amended: through the policy-governed storage API, insert, select
and update each require the caller's identity to equal the first path
segment, an unauthenticated caller is always denied, and no admin
override exists (an admin with a non-matching prefix is denied like
anyone else); the bucket's limit is 5242880 bytes = 5 MiB with exactly
the three allowed content types. However the bucket is public, so
objects are also readable by anyone via the public URL: only writes are
restricted to the owning identity. -/
theorem aadhar_object_policies (uid : UserId) (obj : StorageObject)
    (roles : List RoleRow) (op : Op) :
    (op ≠ .delete →
      storageObjectAllowed (some uid) op obj =
        aadharObjectSelfPolicy (some uid) obj) ∧
    (storageObjectAllowed (some uid) op obj = true →
      obj.bucket_id = "aadhar-cards" ∧
      (foldername obj.pathSegments).head? = some (toString uid)) ∧
    storageObjectAllowed none op obj = false ∧
    (is_admin roles uid = true →
      (foldername obj.pathSegments).head? ≠ some (toString uid) →
      storageObjectAllowed (some uid) op obj = false) ∧
    aadharCardsBucket.file_size_limit = 5 * 1024 * 1024 ∧
    aadharCardsBucket.allowed_mime_types =
      ["image/jpeg", "image/png", "application/pdf"] ∧
    aadharCardsBucket.isPublic = true ∧
    (uploadWithinBucketLimits aadharCardsBucket obj = true →
      obj.byteSize ≤ 5242880 ∧
      obj.mimeType ∈ ["image/jpeg", "image/png", "application/pdf"]) := by
  refine ⟨?_, ?_, ?_, ?_, rfl, rfl, rfl, ?_⟩
  · intro h
    cases op with
    | delete => exact absurd rfl h
    | insert => rfl
    | select => rfl
    | update => rfl
  · intro h
    cases op <;>
      simp only [storageObjectAllowed, aadharObjectSelfPolicy,
        Bool.and_eq_true, beq_iff_eq] at h
    all_goals first
      | exact h
      | cases h
  · cases op <;> simp [storageObjectAllowed, aadharObjectSelfPolicy]
  · intro _ hne
    cases hbe : ((foldername obj.pathSegments).head? ==
        some (toString uid)) with
    | false =>
      cases op <;>
        simp [storageObjectAllowed, aadharObjectSelfPolicy, hbe]
    | true => exact absurd (eq_of_beq hbe) hne
  · intro h
    simp only [uploadWithinBucketLimits, aadharCardsBucket,
      Bool.and_eq_true, decide_eq_true_eq] at h
    refine ⟨h.1, ?_⟩
    have h2 := h.2
    simp only [List.contains, List.elem_eq_mem, decide_eq_true_eq] at h2
    exact h2

/-- C7 amended witness: identity 1 may select its own object through
the API since the select policy is exactly the self policy. -/
theorem aadhar_object_policies_witness :
    (Op.select ≠ Op.delete) ∧
    storageObjectAllowed (some 1) .select
        ⟨"aadhar-cards", ["1", "card.pdf"], 1000, "application/pdf"⟩ =
      aadharObjectSelfPolicy (some 1)
        ⟨"aadhar-cards", ["1", "card.pdf"], 1000, "application/pdf"⟩ :=
  ⟨by decide,
   (aadhar_object_policies 1
      ⟨"aadhar-cards", ["1", "card.pdf"], 1000, "application/pdf"⟩
      [] .select).1 (by decide)⟩

theorem zip_update_frame (table : List Application) (id : Nat)
    (s : AppStatus) :
    ∀ p ∈ table.zip (updateApplicationStatus table id s),
      (p.1.id ≠ id → p.2 = p.1) ∧
      (p.1.id = id → p.2.status = some s ∧ p.2.id = p.1.id ∧
        p.2.user_id = p.1.user_id ∧
        p.2.membership_type = p.1.membership_type ∧
        p.2.amount = p.1.amount ∧
        p.2.payment_reference = p.1.payment_reference ∧
        p.2.admin_notes = p.1.admin_notes ∧
        p.2.created_at = p.1.created_at ∧
        p.2.updated_at = p.1.updated_at) := by
  induction table with
  | nil => intro p hp; simp [updateApplicationStatus] at hp
  | cons a rest ih =>
    intro p hp
    simp only [updateApplicationStatus, List.map_cons, List.zip_cons_cons,
      List.mem_cons] at hp
    rcases hp with hp | hp
    · subst hp
      by_cases hid : a.id = id
      · exact ⟨fun hne => absurd hid hne, fun _ => by simp [hid]⟩
      · exact ⟨fun _ => by simp [hid], fun he => absurd he hid⟩
    · exact ih p hp

/-- C10: the status update maps each row with the target id to the same
row with only its status column replaced; rows with a different id are
untouched (positionally, via the zip pairing), the table keeps its
length, and a backend error is re-thrown with the table unmodified. -/
theorem update_only_status (table : List Application) (id : Nat)
    (s : AppStatus) (backendError : Option String) :
    (updateApplicationStatus table id s).length = table.length ∧
    (∀ p ∈ table.zip (updateApplicationStatus table id s),
      (p.1.id ≠ id → p.2 = p.1) ∧
      (p.1.id = id → p.2.status = some s ∧ p.2.id = p.1.id ∧
        p.2.user_id = p.1.user_id ∧
        p.2.membership_type = p.1.membership_type ∧
        p.2.amount = p.1.amount ∧
        p.2.payment_reference = p.1.payment_reference ∧
        p.2.admin_notes = p.1.admin_notes ∧
        p.2.created_at = p.1.created_at ∧
        p.2.updated_at = p.1.updated_at)) ∧
    (∀ e, backendError = some e →
      updateApplicationStatusCall backendError table id s =
        (Except.error e, table)) := by
  refine ⟨by simp [updateApplicationStatus], zip_update_frame table id s, ?_⟩
  intro e he
  simp [updateApplicationStatusCall, he]

/-- C10 witness: a failing backend leaves the concrete one-row table
untouched and surfaces the error. -/
theorem update_only_status_witness :
    (some "db down" = some "db down") ∧
    updateApplicationStatusCall (some "db down")
        [⟨1, 2, .basic, 100, none, some .pending, none, 0, 0⟩] 1 .approved =
      (Except.error "db down",
       [⟨1, 2, .basic, 100, none, some .pending, none, 0, 0⟩]) :=
  ⟨rfl,
   (update_only_status [⟨1, 2, .basic, 100, none, some .pending, none, 0, 0⟩]
      1 .approved (some "db down")).2.2 "db down" rfl⟩

end Temple
